import Mathlib

/-!
Verification of the geospatial_analysis repository's core logic:
the region-resolution cascade (`GeospatialAnalyzer.get_region_boundary`,
src/geogpt/analyzer.py) and the multi-criteria raster classification
rules (flood risk, solar suitability, deforestation) together with the
workflow planner's keyword dispatch (src/geogpt/workflow.py).

Strings are embedded as `List Char`; Python string operations
(`lower`, `strip`, `split`, substring `in`) are given explicit
executable models.  Raster cell values are embedded as rationals.
The `south_india_regions` module imported at the top of
`get_region_boundary` is absent from the repository, so that import
always raises ImportError and the fallback gazetteer cascade below it
is the code path modelled here.
-/

namespace GeoSpat

/-- Convert a string literal to the `List Char` embedding of Python strings. -/
def lstr (s : String) : List Char := s.toList

/-- Python `str.lower()` (ASCII case folding, which covers every string
the gazetteer and the claims use). -/
def pyLower (s : List Char) : List Char := s.map Char.toLower

/-- Python whitespace test used by `str.strip()` and `str.split()`. -/
def isPySpace (c : Char) : Bool := c.isWhitespace

/-- Python `str.strip()`: remove leading and trailing whitespace. -/
def pyStrip (s : List Char) : List Char :=
  ((s.dropWhile isPySpace).reverse.dropWhile isPySpace).reverse

/-- Helper for `pySplitWS`: accumulate the current word (reversed) while
scanning the string. -/
def pySplitWSAux : List Char → List Char → List (List Char)
  | [], acc => if acc.isEmpty then [] else [acc.reverse]
  | c :: cs, acc =>
    if isPySpace c then
      if acc.isEmpty then pySplitWSAux cs [] else acc.reverse :: pySplitWSAux cs []
    else pySplitWSAux cs (c :: acc)

/-- Python `str.split()` with no argument: split on runs of whitespace,
discarding empty words. -/
def pySplitWS (s : List Char) : List (List Char) := pySplitWSAux s []

/-- Helper for `pySplitOn`. -/
def pySplitOnAux (sep : Char) : List Char → List Char → List (List Char)
  | [], acc => [acc.reverse]
  | c :: cs, acc =>
    if c == sep then acc.reverse :: pySplitOnAux sep cs []
    else pySplitOnAux sep cs (c :: acc)

/-- Python `str.split(sep)` for a one-character separator: splits at every
occurrence, keeping empty parts (so the result always has one more part
than there are separators). -/
def pySplitOn (sep : Char) (s : List Char) : List (List Char) := pySplitOnAux sep s []

/-- Predicate `leadsWith a b`: holds when `a` is an initial segment of `b`. -/
def leadsWith : List Char → List Char → Bool
  | [], _ => true
  | _ :: _, [] => false
  | a :: as, b :: bs => a == b && leadsWith as bs

/-- Python substring test `a in b`: `a` occurs contiguously in `b`
(the empty string occurs in everything, as in Python). -/
def pyIn : List Char → List Char → Bool
  | a, [] => a.isEmpty
  | a, b :: bs => leadsWith a (b :: bs) || pyIn a bs


/-- A bounding-box region `(minLon, minLat, maxLon, maxLat)`, the shape of
every entry of the fallback gazetteer and of the coordinate dictionaries
built by `_create_geometry_or_coords`. -/
structure Region where
  minLon : ℚ
  minLat : ℚ
  maxLon : ℚ
  maxLat : ℚ
deriving DecidableEq, Repr

/-- Build a `Region` from the 4-element coordinate list convention
`[min_lon, min_lat, max_lon, max_lat]` used throughout analyzer.py. -/
def mkRegion (a b c d : ℚ) : Region := ⟨a, b, c, d⟩

/-- A region is non-empty (positive area). -/
def posArea (r : Region) : Prop := r.minLon < r.maxLon ∧ r.minLat < r.maxLat

/-- The fallback gazetteer `location_bounds` of
`GeospatialAnalyzer.get_region_boundary` (analyzer.py lines 39-58),
in its Python insertion (iteration) order. -/
def locationBounds : List (List Char × Region) :=
  [ (lstr "chennai", mkRegion 80.0 12.8 80.3 13.2)
  , (lstr "bangalore", mkRegion 77.4 12.8 77.8 13.2)
  , (lstr "bengaluru", mkRegion 77.4 12.8 77.8 13.2)
  , (lstr "kochi", mkRegion 76.2 9.9 76.4 10.1)
  , (lstr "hyderabad", mkRegion 78.3 17.2 78.6 17.6)
  , (lstr "madurai", mkRegion 78.0 9.8 78.2 10.0)
  , (lstr "coimbatore", mkRegion 76.9 11.0 77.1 11.2)
  , (lstr "mysore", mkRegion 76.6 12.2 76.8 12.4)
  , (lstr "thiruvananthapuram", mkRegion 76.9 8.4 77.1 8.6)
  , (lstr "visakhapatnam", mkRegion 83.2 17.6 83.4 17.8)
  , (lstr "tamil nadu", mkRegion 76.0 8.0 80.5 13.5)
  , (lstr "karnataka", mkRegion 74.0 11.0 78.5 18.5)
  , (lstr "kerala", mkRegion 74.0 8.0 77.5 12.8)
  , (lstr "andhra pradesh", mkRegion 76.0 12.0 84.5 19.5)
  , (lstr "telangana", mkRegion 77.0 15.5 81.0 19.5)
  , (lstr "goa", mkRegion 73.7 14.5 74.2 15.8)
  , (lstr "puducherry", mkRegion 79.7 11.9 79.9 12.1)
  , (lstr "india", mkRegion 68.0 6.0 97.0 37.0) ]

/-- The alias table `location_variations` (analyzer.py lines 72-123),
mapping alternate spellings to canonical names, in insertion order. -/
def locationVariations : List (List Char × List Char) :=
  [ (lstr "bengaluru", lstr "bangalore")
  , (lstr "bangalore", lstr "bangalore")
  , (lstr "bengaluru city", lstr "bangalore")
  , (lstr "chennai", lstr "chennai")
  , (lstr "madras", lstr "chennai")
  , (lstr "kochi", lstr "kochi")
  , (lstr "cochin", lstr "kochi")
  , (lstr "thiruvananthapuram", lstr "thiruvananthapuram")
  , (lstr "trivandrum", lstr "thiruvananthapuram")
  , (lstr "hyderabad", lstr "hyderabad")
  , (lstr "vizag", lstr "visakhapatnam")
  , (lstr "visakhapatnam", lstr "visakhapatnam")
  , (lstr "vijayawada", lstr "vijayawada")
  , (lstr "bezwada", lstr "vijayawada")
  , (lstr "mysore", lstr "mysore")
  , (lstr "mysuru", lstr "mysore")
  , (lstr "mangalore", lstr "mangalore")
  , (lstr "mangaluru", lstr "mangalore")
  , (lstr "coimbatore", lstr "coimbatore")
  , (lstr "kovai", lstr "coimbatore")
  , (lstr "madurai", lstr "madurai")
  , (lstr "tiruchirapalli", lstr "tiruchirapalli")
  , (lstr "trichy", lstr "tiruchirapalli")
  , (lstr "salem", lstr "salem")
  , (lstr "tirunelveli", lstr "tirunelveli")
  , (lstr "nellai", lstr "tirunelveli")
  , (lstr "tiruppur", lstr "tiruppur")
  , (lstr "vellore", lstr "vellore")
  , (lstr "erode", lstr "erode")
  , (lstr "thoothukudi", lstr "thoothukudi")
  , (lstr "tuticorin", lstr "thoothukudi")
  , (lstr "kozhikode", lstr "kozhikode")
  , (lstr "calicut", lstr "kozhikode")
  , (lstr "thrissur", lstr "thrissur")
  , (lstr "trichur", lstr "thrissur")
  , (lstr "kollam", lstr "kollam")
  , (lstr "quilon", lstr "kollam")
  , (lstr "palakkad", lstr "palakkad")
  , (lstr "palghat", lstr "palakkad")
  , (lstr "alappuzha", lstr "alappuzha")
  , (lstr "alleppey", lstr "alappuzha")
  , (lstr "kannur", lstr "kannur")
  , (lstr "cannanore", lstr "kannur")
  , (lstr "kasaragod", lstr "kasaragod")
  , (lstr "kottayam", lstr "kottayam")
  , (lstr "panaji", lstr "panaji")
  , (lstr "panjim", lstr "panaji")
  , (lstr "puducherry", lstr "puducherry")
  , (lstr "pondicherry", lstr "puducherry")
  , (lstr "pondy", lstr "puducherry") ]

/-- The fixed default fallback region (analyzer.py line 170): the Chennai
bounding box `[80.0, 12.8, 80.3, 13.2]`. -/
def defaultRegion : Region := mkRegion 80.0 12.8 80.3 13.2

/-- The remote administrative-boundary collaborator (FAO GAUL via Earth
Engine, analyzer.py lines 144-166).  `available` models whether Earth
Engine is initialized (the probe `ee.Number(1).getInfo()`); the two
lookups model the exact-name ADM1 (state) and ADM0 (country) filters,
returning `none` when the filtered collection is empty or any call fails. -/
structure EEEnv where
  available : Bool
  stateLookup : List Char → Option Region
  countryLookup : List Char → Option Region

/-- The environment in which Earth Engine is not initialized, so the
remote boundary tier is skipped entirely. -/
def eeUnavailable : EEEnv := ⟨false, fun _ => none, fun _ => none⟩

/-- Tier-2 test (analyzer.py line 68): the normalized input is a substring
of the key or vice versa. -/
def substrMatch (ll key : List Char) : Bool := pyIn ll key || pyIn key ll

/-- Tier-4 test (analyzer.py lines 133-142): some whitespace token of the
input and some token of the key, both longer than 3 characters, with one
a substring of the other. -/
def fuzzyMatch (ll key : List Char) : Bool :=
  (pySplitWS ll).any fun lw => (pySplitWS key).any fun kw =>
    decide (3 < lw.length) && decide (3 < kw.length) && (pyIn lw kw || pyIn kw lw)

/-- Source `GeospatialAnalyzer.get_region_boundary` (analyzer.py lines 19-171),
on the fallback path taken because the `south_india_regions` import
fails.  The sequential early-`return` blocks of the Python are the
nested fall-through matches here; `_create_geometry_or_coords` only
re-packages the same four coordinates, so it is the identity on
`Region`. -/
def getRegionBoundary (env : EEEnv) (location : List Char) : Region :=
  let ll := pyStrip (pyLower location)
  match List.lookup ll locationBounds with
  | some r => r
  | none =>
    match locationBounds.find? (fun kv => substrMatch ll kv.1) with
    | some kv => kv.2
    | none =>
      match (List.lookup ll locationVariations).bind
          (fun m => List.lookup m locationBounds) with
      | some r => r
      | none =>
        match locationBounds.find? (fun kv => fuzzyMatch ll kv.1) with
        | some kv => kv.2
        | none =>
          match (if env.available then
                   (env.stateLookup location).orElse (fun _ => env.countryLookup location)
                 else none) with
          | some g => g
          | none => defaultRegion

/-- Spec tier 1: exact match of the lower-cased, trimmed input against a
gazetteer key. -/
def exactMatchTier (ll : List Char) : Option Region := List.lookup ll locationBounds

/-- Spec tier 2: substring containment in both directions over every
gazetteer key in fixed iteration order. -/
def substringTier (ll : List Char) : Option Region :=
  (locationBounds.find? (fun kv => substrMatch ll kv.1)).map (·.2)

/-- Spec tier 3: alias lookup; the mapped canonical name must itself
exist in the gazetteer. -/
def aliasTier (ll : List Char) : Option Region :=
  (List.lookup ll locationVariations).bind (fun m => List.lookup m locationBounds)

/-- Spec tier 4: token fuzzy match, first gazetteer key in fixed
iteration order whose tokens fuzzily match the input's tokens. -/
def fuzzyTier (ll : List Char) : Option Region :=
  (locationBounds.find? (fun kv => fuzzyMatch ll kv.1)).map (·.2)

/-- Spec tier 5: remote administrative-boundary lookup, state level then
country level, on the original (un-normalized) location string; skipped
when the remote backend is unavailable. -/
def remoteTier (env : EEEnv) (location : List Char) : Option Region :=
  if env.available then
    (env.stateLookup location).orElse (fun _ => env.countryLookup location)
  else none

/-- The resolution cascade as the specification words it: the ordered
list of tiers, short-circuiting on the first match, falling through to
the fixed default region. -/
def resolveCascade (env : EEEnv) (location : List Char) : Region :=
  let ll := pyStrip (pyLower location)
  (([ exactMatchTier ll, substringTier ll, aliasTier ll, fuzzyTier ll
    , remoteTier env location ].findSome? id)).getD defaultRegion

/-! ## Multi-criteria raster classification (per-cell semantics)

Earth Engine image algebra is per-cell: `img.lt(t)` is the boolean mask
`cell value < t`, `mask.multiply(w)` is `w` where the mask holds and `0`
elsewhere, `add`/`subtract` are cellwise sums, and `a.where(m, v)`
replaces `a`'s value by `v` on the cells where `m` holds.  The
definitions below are the per-cell shallow embedding of the image
expressions of analyzer.py, with cell values as rationals. -/

/-- A boolean mask cell as the number Earth Engine arithmetic uses. -/
def b2q (b : Bool) : ℚ := if b then 1 else 0

/-- Source `very_low_elevation = elevation.lt(5)` (analyzer.py line 250). -/
def veryLowElevation (elev : ℚ) : Bool := decide (elev < 5)

/-- Source `low_elevation = elevation.lt(15)` (analyzer.py line 247). -/
def lowElevation (elev : ℚ) : Bool := decide (elev < 15)

/-- Source `high_precipitation = mean_precipitation.gt(40)` (line 253). -/
def highPrecipitation (precip : ℚ) : Bool := decide (40 < precip)

/-- Source `very_high_precipitation = mean_precipitation.gt(80)` (line 254). -/
def veryHighPrecipitation (precip : ℚ) : Bool := decide (80 < precip)

/-- Source `water_areas = mean_vv.lt(-8)` (line 257). -/
def waterAreas (vv : ℚ) : Bool := decide (vv < -8)

/-- Source `strong_water_signal = mean_vv.lt(-12)` (line 258). -/
def strongWaterSignal (vv : ℚ) : Bool := decide (vv < -12)

/-- Source `flat_areas = slope.lt(2)` (line 261). -/
def flatAreas (slope : ℚ) : Bool := decide (slope < 2)

/-- The flood-risk score accumulation (analyzer.py lines 264-279) as a
function of the seven per-cell criterion booleans, in the source's
order of addition. -/
def floodRiskScoreOf (vle le vhp hp sws wa fa : Bool) : ℚ :=
  let s0 : ℚ := 0
  let s1 := s0 + b2q vle * 2
  let s2 := s1 + b2q le * 1
  let s3 := s2 + b2q vhp * 2
  let s4 := s3 + b2q hp * 1
  let s5 := s4 + b2q sws * 2
  let s6 := s5 + b2q wa * 1
  s6 + b2q fa * 1

/-- The flood-risk score of a cell with the given elevation,
precipitation, VV backscatter and slope values. -/
def floodRiskScore (elev precip vv slope : ℚ) : ℚ :=
  floodRiskScoreOf (veryLowElevation elev) (lowElevation elev)
    (veryHighPrecipitation precip) (highPrecipitation precip)
    (strongWaterSignal vv) (waterAreas vv) (flatAreas slope)

/-- The flood-risk banding (analyzer.py lines 282-285): four sequential
`where` overwrites starting from the score image itself. -/
def floodRiskZones (score : ℚ) : ℚ :=
  let z1 := if 4 ≤ score then 3 else score
  let z2 := if 2 ≤ score ∧ score < 4 then 2 else z1
  let z3 := if 1 ≤ score ∧ score < 2 then 1 else z2
  if score < 1 then 0 else z3

/-- Source `very_suitable_slope = slope.lt(5)` (analyzer.py line 354). -/
def verySuitableSlope (slope : ℚ) : Bool := decide (slope < 5)

/-- Source `suitable_slope = slope.lt(15)` (line 355). -/
def suitableSlope (slope : ℚ) : Bool := decide (slope < 15)

/-- Source `excellent_aspect = aspect.gt(160).And(aspect.lt(200))` (line 358). -/
def excellentAspect (aspect : ℚ) : Bool := decide (160 < aspect) && decide (aspect < 200)

/-- Source `good_aspect = aspect.gt(135).And(aspect.lt(225))` (line 359). -/
def goodAspect (aspect : ℚ) : Bool := decide (135 < aspect) && decide (aspect < 225)

/-- Source `vegetation = ndvi.gt(0.3)` (analyzer.py line 343). -/
def vegetation (ndvi : ℚ) : Bool := decide (0.3 < ndvi)

/-- Source `water = ndvi.lt(0.1)` (line 344). -/
def water (ndvi : ℚ) : Bool := decide (ndvi < 0.1)

/-- Source `urban = ndvi.lt(0.2).And(ndvi.gt(0.1))` (line 345). -/
def urban (ndvi : ℚ) : Bool := decide (ndvi < 0.2) && decide (0.1 < ndvi)

/-- Source `bare_soil = ndvi.lt(0.3).And(ndvi.gt(0.1))` (line 346). -/
def bareSoil (ndvi : ℚ) : Bool := decide (ndvi < 0.3) && decide (0.1 < ndvi)

/-- Source `excellent_land_cover = bare_soil` (line 362). -/
def excellentLandCover (ndvi : ℚ) : Bool := bareSoil ndvi

/-- Source `good_land_cover = vegetation.Or(bare_soil)` (line 363). -/
def goodLandCover (ndvi : ℚ) : Bool := vegetation ndvi || bareSoil ndvi

/-- Source `unsuitable_land_cover = water.Or(urban)` (line 364). -/
def unsuitableLandCover (ndvi : ℚ) : Bool := water ndvi || urban ndvi

/-- Source `solar_irradiance = ee.Image(5.0)` (line 350): the source models
irradiance as the constant 5.0 at every cell. -/
def solarIrradiance : ℚ := 5.0

/-- Source `excellent_irradiance = solar_irradiance.gt(5.2)` (line 367). -/
def excellentIrradiance (irr : ℚ) : Bool := decide (5.2 < irr)

/-- Source `good_irradiance = solar_irradiance.gt(4.5)` (line 368). -/
def goodIrradiance (irr : ℚ) : Bool := decide (4.5 < irr)

/-- The solar-suitability score accumulation (analyzer.py lines 371-388)
as a function of the nine per-cell criterion booleans, in the source's
order of addition/subtraction. -/
def suitabilityScoreOf (vss ss ea ga elc glc ulc ei gi : Bool) : ℚ :=
  let s0 : ℚ := 0
  let s1 := s0 + b2q vss * 2
  let s2 := s1 + b2q ss * 1
  let s3 := s2 + b2q ea * 2
  let s4 := s3 + b2q ga * 1
  let s5 := s4 + b2q elc * 2
  let s6 := s5 + b2q glc * 1
  let s7 := s6 - b2q ulc * 3
  let s8 := s7 + b2q ei * 1
  s8 + b2q gi * 0.5

/-- The solar-suitability score of a cell with the given slope, aspect,
NDVI and irradiance values. -/
def suitabilityScore (slope aspect ndvi irr : ℚ) : ℚ :=
  suitabilityScoreOf (verySuitableSlope slope) (suitableSlope slope)
    (excellentAspect aspect) (goodAspect aspect)
    (excellentLandCover ndvi) (goodLandCover ndvi) (unsuitableLandCover ndvi)
    (excellentIrradiance irr) (goodIrradiance irr)

/-- The land-cover slice of the solar score: the sum of the three
land-cover criterion contributions (+2 excellent, +1 good, -3
unsuitable) at a cell with the given NDVI. -/
def landCoverContribution (ndvi : ℚ) : ℚ :=
  b2q (excellentLandCover ndvi) * 2 + b2q (goodLandCover ndvi) * 1
    - b2q (unsuitableLandCover ndvi) * 3

/-- The solar-suitability banding (analyzer.py lines 391-394): four
sequential `where` overwrites starting from the score image itself. -/
def suitabilityZones (score : ℚ) : ℚ :=
  let z1 := if 5 ≤ score then 3 else score
  let z2 := if 3 ≤ score ∧ score < 5 then 2 else z1
  let z3 := if 1 ≤ score ∧ score < 3 then 1 else z2
  if score < 1 then 0 else z3

/-- Source `forest_T = ndvi_T.gt(0.3)` (analyzer.py lines 464-465): a cell is
forest at a time exactly when its NDVI at that time exceeds 0.3. -/
def forestAt (ndvi : ℚ) : Bool := decide (0.3 < ndvi)

/-- Source `ndvi_change = ndvi_end.subtract(ndvi_start)` (line 456). -/
def ndviChange (ndviStart ndviEnd : ℚ) : ℚ := ndviEnd - ndviStart

/-- Source `deforestation = ndvi_change.lt(-0.1)` (line 460): the
significant-decrease flag. -/
def significantDecrease (ndviStart ndviEnd : ℚ) : Bool :=
  decide (ndviChange ndviStart ndviEnd < -0.1)

/-- Source `deforested_areas = forest_2015.And(ndvi_2023.lt(0.3))` (line 468). -/
def deforestedAreas (ndviStart ndviEnd : ℚ) : Bool :=
  forestAt ndviStart && decide (ndviEnd < 0.3)

/-! ## Time-period parsing and the workflow planner -/

/-- The one error condition of time-period handling: too few parts after
splitting on `-` (the source surfaces this as an uncaught IndexError on
`split('-')[1]`; the specification names the condition
InvalidTimePeriodFormat). -/
inductive TimePeriodError where
  | invalidTimePeriodFormat
deriving DecidableEq, Repr

/-- Source `plan.time_period.split('-')[0]` and `...split('-')[1]` (analyzer.py
lines 228-231, 334-336, 436-437): split the time period on `-` and
index the first two parts, failing when part 1 does not exist. -/
def parseTimePeriod (tp : List Char) :
    Except TimePeriodError (List Char × List Char) :=
  let parts := pySplitOn '-' tp
  match parts.get? 0, parts.get? 1 with
  | some a, some b => Except.ok (a, b)
  | _, _ => Except.error TimePeriodError.invalidTimePeriodFormat

/-- The shape of `execute_deforestation_analysis` around its layer
requests (analyzer.py lines 436-442): the start and end years are
extracted from the time period first, and only then handed to the layer
provider (`filterDate` on the imagery collection); when extraction
fails, the provider is never consulted.  `fetch` abstracts the provider. -/
def requestDeforestationLayers {α : Type} (fetch : List Char → List Char → α)
    (tp : List Char) : Except TimePeriodError α :=
  match parseTimePeriod tp with
  | Except.ok (s, e) => Except.ok (fetch s e)
  | Except.error err => Except.error err

/-- The `AnalysisType` enumeration (workflow.py lines 10-18). -/
inductive AnalysisType where
  | floodRisk
  | solarSuitability
  | deforestation
  | urbanGrowth
  | agriculturalSuitability
  | wildfireRisk
  | landUseChange
deriving DecidableEq, Repr

/-- The fields of `WorkflowPlan` (workflow.py lines 42-50) that the
planner's dispatch determines; the `steps` and visualization text are
presentation data not referenced by any claim. -/
structure WorkflowPlan where
  analysisType : AnalysisType
  regionOfInterest : List Char
  timePeriod : List Char
deriving Repr

/-- Source `WorkflowPlanner.plan_flood_risk_analysis` (workflow.py line 122):
always builds a plan with `analysis_type=AnalysisType.FLOOD_RISK`. -/
def planFloodRiskAnalysis (location tp : List Char) : WorkflowPlan :=
  ⟨AnalysisType.floodRisk, location, tp⟩

/-- Source `WorkflowPlanner.plan_solar_suitability_analysis` (workflow.py line
171): always builds a plan with `AnalysisType.SOLAR_SUITABILITY`. -/
def planSolarSuitabilityAnalysis (location tp : List Char) : WorkflowPlan :=
  ⟨AnalysisType.solarSuitability, location, tp⟩

/-- Source `WorkflowPlanner.plan_deforestation_analysis` (workflow.py line 227):
always builds a plan with `AnalysisType.DEFORESTATION`. -/
def planDeforestationAnalysis (location tp : List Char) : WorkflowPlan :=
  ⟨AnalysisType.deforestation, location, tp⟩

/-- The flood keyword group of `plan_analysis` (workflow.py line 290). -/
def floodKeywords : List (List Char) :=
  [lstr "flood", lstr "flooding", lstr "flood-prone", lstr "water", lstr "inundation"]

/-- The solar keyword group of `plan_analysis` (workflow.py line 292). -/
def solarKeywords : List (List Char) :=
  [lstr "solar", lstr "renewable", lstr "energy", lstr "farm", lstr "suitability"]

/-- The deforestation keyword group of `plan_analysis` (workflow.py line
294); the source lists "deforestation" twice and the duplicate is kept. -/
def deforestationKeywords : List (List Char) :=
  [lstr "deforestation", lstr "forest", lstr "vegetation", lstr "tree", lstr "deforestation"]

/-- Source `WorkflowPlanner.plan_analysis` (workflow.py lines 276-298): lower
the query, test the keyword groups in the order flood, solar,
deforestation, and default to flood risk. -/
def planAnalysis (query location tp : List Char) : WorkflowPlan :=
  let ql := pyLower query
  if floodKeywords.any (fun k => pyIn k ql) then
    planFloodRiskAnalysis location tp
  else if solarKeywords.any (fun k => pyIn k ql) then
    planSolarSuitabilityAnalysis location tp
  else if deforestationKeywords.any (fun k => pyIn k ql) then
    planDeforestationAnalysis location tp
  else
    planFloodRiskAnalysis location tp

/-! ## Helper lemmas -/

/-- Both banding pipelines overwrite the score with a constant on a
partition of the rationals; the flood table is the nested conditional
with thresholds 4, 2, 1. -/
lemma floodRiskZones_eq (q : ℚ) :
    floodRiskZones q =
      (if 4 ≤ q then 3 else if 2 ≤ q then 2 else if 1 ≤ q then 1 else 0) := by
  rcases lt_or_le q 1 with h1 | h1
  · have n1 : ¬ (1:ℚ) ≤ q := not_le.mpr h1
    have n2 : ¬ (2:ℚ) ≤ q := by intro h; exact n1 (by linarith)
    have n4 : ¬ (4:ℚ) ≤ q := by intro h; exact n1 (by linarith)
    simp [floodRiskZones, h1, n1, n2, n4]
  · rcases lt_or_le q 2 with h2 | h2
    · have n2 : ¬ (2:ℚ) ≤ q := not_le.mpr h2
      have n4 : ¬ (4:ℚ) ≤ q := by intro h; exact n2 (by linarith)
      simp [floodRiskZones, not_lt.mpr h1, h1, h2, n2, n4]
    · rcases lt_or_le q 4 with h4 | h4
      · have n4 : ¬ (4:ℚ) ≤ q := not_le.mpr h4
        simp [floodRiskZones, not_lt.mpr h1, h1, h2, h4, n4, not_lt.mpr h2]
      · simp [floodRiskZones, not_lt.mpr h1, h1, h2, h4, not_lt.mpr h2,
          not_lt.mpr h4, le_trans h1]

/-- The solar banding as the nested conditional with thresholds 5, 3, 1. -/
lemma suitabilityZones_eq (q : ℚ) :
    suitabilityZones q =
      (if 5 ≤ q then 3 else if 3 ≤ q then 2 else if 1 ≤ q then 1 else 0) := by
  rcases lt_or_le q 1 with h1 | h1
  · have n1 : ¬ (1:ℚ) ≤ q := not_le.mpr h1
    have n3 : ¬ (3:ℚ) ≤ q := by intro h; exact n1 (by linarith)
    have n5 : ¬ (5:ℚ) ≤ q := by intro h; exact n1 (by linarith)
    simp [suitabilityZones, h1, n1, n3, n5]
  · rcases lt_or_le q 3 with h3 | h3
    · have n3 : ¬ (3:ℚ) ≤ q := not_le.mpr h3
      have n5 : ¬ (5:ℚ) ≤ q := by intro h; exact n3 (by linarith)
      simp [suitabilityZones, not_lt.mpr h1, h1, h3, n3, n5]
    · rcases lt_or_le q 5 with h5 | h5
      · have n5 : ¬ (5:ℚ) ≤ q := not_le.mpr h5
        simp [suitabilityZones, not_lt.mpr h1, h1, h3, h5, n5, not_lt.mpr h3]
      · simp [suitabilityZones, not_lt.mpr h1, h1, h3, h5, not_lt.mpr h3,
          not_lt.mpr h5]

/-- Exactly one flood band condition holds at every score. -/
lemma floodBandCount (q : ℚ) :
    ((if 4 ≤ q then (1:ℕ) else 0) + (if 2 ≤ q ∧ q < 4 then 1 else 0)
      + (if 1 ≤ q ∧ q < 2 then 1 else 0) + (if q < 1 then 1 else 0)) = 1 := by
  rcases lt_or_le q 1 with h1 | h1
  · rw [if_neg (by intro h; linarith), if_neg (by rintro ⟨h, _⟩; linarith),
      if_neg (by rintro ⟨h, _⟩; linarith), if_pos h1]
  · rcases lt_or_le q 2 with h2 | h2
    · rw [if_neg (by intro h; linarith), if_neg (by rintro ⟨h, _⟩; linarith),
        if_pos ⟨h1, h2⟩, if_neg (by intro h; linarith)]
    · rcases lt_or_le q 4 with h4 | h4
      · rw [if_neg (by intro h; linarith), if_pos ⟨h2, h4⟩,
          if_neg (by rintro ⟨_, h⟩; linarith), if_neg (by intro h; linarith)]
      · rw [if_pos h4, if_neg (by rintro ⟨_, h⟩; linarith),
          if_neg (by rintro ⟨_, h⟩; linarith), if_neg (by intro h; linarith)]

/-- Exactly one solar band condition holds at every score. -/
lemma solarBandCount (q : ℚ) :
    ((if 5 ≤ q then (1:ℕ) else 0) + (if 3 ≤ q ∧ q < 5 then 1 else 0)
      + (if 1 ≤ q ∧ q < 3 then 1 else 0) + (if q < 1 then 1 else 0)) = 1 := by
  rcases lt_or_le q 1 with h1 | h1
  · rw [if_neg (by intro h; linarith), if_neg (by rintro ⟨h, _⟩; linarith),
      if_neg (by rintro ⟨h, _⟩; linarith), if_pos h1]
  · rcases lt_or_le q 3 with h3 | h3
    · rw [if_neg (by intro h; linarith), if_neg (by rintro ⟨h, _⟩; linarith),
        if_pos ⟨h1, h3⟩, if_neg (by intro h; linarith)]
    · rcases lt_or_le q 5 with h5 | h5
      · rw [if_neg (by intro h; linarith), if_pos ⟨h3, h5⟩,
          if_neg (by rintro ⟨_, h⟩; linarith), if_neg (by intro h; linarith)]
      · rw [if_pos h5, if_neg (by rintro ⟨_, h⟩; linarith),
          if_neg (by rintro ⟨_, h⟩; linarith), if_neg (by intro h; linarith)]

/-- Every flood zone value is one of 0, 1, 2, 3. -/
lemma floodZonesMem (q : ℚ) :
    floodRiskZones q = 0 ∨ floodRiskZones q = 1 ∨ floodRiskZones q = 2
      ∨ floodRiskZones q = 3 := by
  rw [floodRiskZones_eq]; split_ifs <;> norm_num

/-- Every solar zone value is one of 0, 1, 2, 3. -/
lemma solarZonesMem (q : ℚ) :
    suitabilityZones q = 0 ∨ suitabilityZones q = 1 ∨ suitabilityZones q = 2
      ∨ suitabilityZones q = 3 := by
  rw [suitabilityZones_eq]; split_ifs <;> norm_num

/-- Closed form of the land-cover slice of the solar score over the five
NDVI intervals cut out by the thresholds 0.1, 0.2, 0.3. -/
lemma landCoverContribution_eval (n : ℚ) :
    landCoverContribution n =
      if n < 0.1 then -3
      else if 0.1 < n ∧ n < 0.2 then 0
      else if 0.2 ≤ n ∧ n < 0.3 then 3
      else if 0.3 < n then 1
      else 0 := by
  rcases lt_or_le n 0.1 with h1 | h1
  · have d2 : decide ((0.1:ℚ) < n) = false := by simp; linarith
    have d4 : decide (n < (0.3:ℚ)) = true := by simp; linarith
    have d5 : decide ((0.3:ℚ) < n) = false := by simp; linarith
    simp [landCoverContribution, excellentLandCover, goodLandCover, unsuitableLandCover,
      bareSoil, vegetation, urban, water, b2q, h1, d2, d4, d5]
  · have d1 : decide (n < (0.1:ℚ)) = false := by simp; linarith
    have nlt : ¬ n < (0.1:ℚ) := not_lt.mpr h1
    rcases eq_or_lt_of_le h1 with heq | h1'
    · have d2 : decide ((0.1:ℚ) < n) = false := by simp; linarith
      have d3 : decide (n < (0.2:ℚ)) = true := by simp; linarith
      have d4 : decide (n < (0.3:ℚ)) = true := by simp; linarith
      have d5 : decide ((0.3:ℚ) < n) = false := by simp; linarith
      have r2 : ¬ ((0.1:ℚ) < n ∧ n < 0.2) := by rintro ⟨hh, _⟩; linarith
      have r3 : ¬ ((0.2:ℚ) ≤ n ∧ n < 0.3) := by rintro ⟨hh, _⟩; linarith
      have r5 : ¬ (0.3:ℚ) < n := by intro hh; linarith
      simp [landCoverContribution, excellentLandCover, goodLandCover, unsuitableLandCover,
        bareSoil, vegetation, urban, water, b2q, nlt, d1, d2, d3, d4, d5, r2, r3, r5]
    · have d2 : decide ((0.1:ℚ) < n) = true := by simp; linarith
      rcases lt_or_le n 0.2 with h2 | h2
      · have d3 : decide (n < (0.2:ℚ)) = true := by simp; linarith
        have d4 : decide (n < (0.3:ℚ)) = true := by simp; linarith
        have d5 : decide ((0.3:ℚ) < n) = false := by simp; linarith
        simp [landCoverContribution, excellentLandCover, goodLandCover, unsuitableLandCover,
          bareSoil, vegetation, urban, water, b2q, nlt, d1, d2, d3, d4, d5, h1', h2]
        norm_num
      · have d3 : decide (n < (0.2:ℚ)) = false := by simp; linarith
        have r2 : ¬ ((0.1:ℚ) < n ∧ n < 0.2) := by rintro ⟨_, hh⟩; linarith
        rcases lt_or_le n 0.3 with h3 | h3
        · have d4 : decide (n < (0.3:ℚ)) = true := by simp; linarith
          have d5 : decide ((0.3:ℚ) < n) = false := by simp; linarith
          simp [landCoverContribution, excellentLandCover, goodLandCover, unsuitableLandCover,
            bareSoil, vegetation, urban, water, b2q, nlt, d1, d2, d3, d4, d5, r2, h2, h3]
          norm_num
        · have d4 : decide (n < (0.3:ℚ)) = false := by simp; linarith
          have r3 : ¬ ((0.2:ℚ) ≤ n ∧ n < 0.3) := by rintro ⟨_, hh⟩; linarith
          rcases eq_or_lt_of_le h3 with he3 | h3'
          · have d5 : decide ((0.3:ℚ) < n) = false := by simp; linarith
            have r5 : ¬ (0.3:ℚ) < n := by intro hh; linarith
            simp [landCoverContribution, excellentLandCover, goodLandCover, unsuitableLandCover,
              bareSoil, vegetation, urban, water, b2q, nlt, d1, d2, d3, d4, d5, r2, r3, r5]
          · have d5 : decide ((0.3:ℚ) < n) = true := by simp; linarith
            simp [landCoverContribution, excellentLandCover, goodLandCover, unsuitableLandCover,
              bareSoil, vegetation, urban, water, b2q, nlt, d1, d2, d3, d4, d5, r2, r3, h3']

/-- The nested fall-through matches of `getRegionBoundary` equal the
specification's tier list evaluated in order with short-circuiting. -/
lemma getRegionBoundary_eq_cascade (env : EEEnv) (location : List Char) :
    getRegionBoundary env location = resolveCascade env location := by
  unfold getRegionBoundary resolveCascade exactMatchTier substringTier aliasTier
    fuzzyTier remoteTier
  simp only []
  generalize pyStrip (pyLower location) = ll
  cases h1 : List.lookup ll locationBounds with
  | some r => simp [List.findSome?, h1]
  | none =>
    cases h2 : locationBounds.find? (fun kv => substrMatch ll kv.1) with
    | some kv => simp [List.findSome?, h1, h2]
    | none =>
      cases h3 : (List.lookup ll locationVariations).bind
          (fun m => List.lookup m locationBounds) with
      | some r => simp [List.findSome?, h1, h2, h3]
      | none =>
        cases h4 : locationBounds.find? (fun kv => fuzzyMatch ll kv.1) with
        | some kv => simp [List.findSome?, h1, h2, h3, h4]
        | none =>
          cases h5 : (if env.available then
              (env.stateLookup location).orElse (fun _ => env.countryLookup location)
            else none) with
          | some g => simp [List.findSome?, h1, h2, h3, h4, h5]
          | none => simp [List.findSome?, h1, h2, h3, h4, h5]

/-- A successful association-list lookup returns a stored value. -/
lemma lookup_mem_snd {α β : Type} [BEq α] [LawfulBEq α] {a : α} {b : β} :
    ∀ {l : List (α × β)}, List.lookup a l = some b → b ∈ l.map Prod.snd := by
  intro l
  induction l with
  | nil => intro h; simp [List.lookup] at h
  | cons kv rest ih =>
    intro h
    rw [List.lookup] at h
    by_cases he : a == kv.1
    · simp [he] at h
      simp [← h]
    · simp [he] at h
      simp [ih h]

/-- Every region stored in the fallback gazetteer has positive area. -/
lemma boundsPos : ∀ r ∈ locationBounds.map Prod.snd, posArea r := by
  intro r hr
  fin_cases hr <;> norm_num [posArea, mkRegion]

/-- The default fallback region has positive area. -/
lemma defaultPos : posArea defaultRegion := by
  norm_num [posArea, defaultRegion, mkRegion]

/-- Whatever tier fires, the resolver's result has positive area, as
long as the remote boundary collaborator only ever reports non-empty
regions. -/
lemma resolve_posArea (env : EEEnv)
    (hs : ∀ s r, env.stateLookup s = some r → posArea r)
    (hc : ∀ s r, env.countryLookup s = some r → posArea r)
    (location : List Char) :
    posArea (getRegionBoundary env location) := by
  rw [getRegionBoundary_eq_cascade]
  unfold resolveCascade exactMatchTier substringTier aliasTier fuzzyTier remoteTier
  simp only []
  generalize pyStrip (pyLower location) = ll
  cases h1 : List.lookup ll locationBounds with
  | some r =>
    simp [List.findSome?, h1]
    exact boundsPos r (lookup_mem_snd h1)
  | none =>
    cases h2 : locationBounds.find? (fun kv => substrMatch ll kv.1) with
    | some kv =>
      simp [List.findSome?, h1, h2]
      exact boundsPos kv.2 (List.mem_map_of_mem Prod.snd (List.mem_of_find?_eq_some h2))
    | none =>
      cases h3 : (List.lookup ll locationVariations).bind
          (fun m => List.lookup m locationBounds) with
      | some r =>
        simp [List.findSome?, h1, h2, h3]
        rcases Option.bind_eq_some.mp h3 with ⟨m, _, hm2⟩
        exact boundsPos r (lookup_mem_snd hm2)
      | none =>
        cases h4 : locationBounds.find? (fun kv => fuzzyMatch ll kv.1) with
        | some kv =>
          simp [List.findSome?, h1, h2, h3, h4]
          exact boundsPos kv.2 (List.mem_map_of_mem Prod.snd (List.mem_of_find?_eq_some h4))
        | none =>
          cases h5 : (if env.available then
              (env.stateLookup location).orElse (fun _ => env.countryLookup location)
            else none) with
          | some g =>
            simp [List.findSome?, h1, h2, h3, h4, h5]
            by_cases ha : env.available
            · rw [if_pos ha] at h5
              cases hsl : env.stateLookup location with
              | some r0 =>
                rw [hsl] at h5
                simp [Option.orElse] at h5
                exact h5 ▸ hs location r0 hsl
              | none =>
                rw [hsl] at h5
                simp [Option.orElse] at h5
                exact hc location g h5
            · rw [if_neg ha] at h5; cases h5
          | none =>
            simp [List.findSome?, h1, h2, h3, h4, h5]
            exact defaultPos

/-- When every tier misses, the resolver returns the default region. -/
lemma resolve_fallsThrough (env : EEEnv) (location : List Char)
    (h1 : exactMatchTier (pyStrip (pyLower location)) = none)
    (h2 : substringTier (pyStrip (pyLower location)) = none)
    (h3 : aliasTier (pyStrip (pyLower location)) = none)
    (h4 : fuzzyTier (pyStrip (pyLower location)) = none)
    (h5 : remoteTier env location = none) :
    getRegionBoundary env location = defaultRegion := by
  rw [getRegionBoundary_eq_cascade]
  unfold resolveCascade
  simp [List.findSome?, h1, h2, h3, h4, h5]

/-- Splitting a separator-free string produces that string as the one part. -/
lemma pySplitOnAux_no_sep (sep : Char) :
    ∀ (s acc : List Char), sep ∉ s → pySplitOnAux sep s acc = [acc.reverse ++ s] := by
  intro s
  induction s with
  | nil => intro acc _; simp [pySplitOnAux]
  | cons c cs ih =>
    intro acc h
    have hc : (c == sep) = false := by
      simp only [beq_eq_false_iff_ne, ne_eq]
      intro he; exact h (he ▸ List.mem_cons_self c cs)
    have hcs : sep ∉ cs := fun hm => h (List.mem_cons_of_mem c hm)
    simp [pySplitOnAux, hc, ih (c :: acc) hcs]

/-- Splitting cuts at the first separator occurrence. -/
lemma pySplitOnAux_with_sep (sep : Char) :
    ∀ (a b acc : List Char), sep ∉ a →
      pySplitOnAux sep (a ++ sep :: b) acc
        = (acc.reverse ++ a) :: pySplitOnAux sep b [] := by
  intro a
  induction a with
  | nil => intro b acc _; simp [pySplitOnAux]
  | cons c cs ih =>
    intro b acc h
    have hc : (c == sep) = false := by
      simp only [beq_eq_false_iff_ne, ne_eq]
      intro he; exact h (he ▸ List.mem_cons_self c cs)
    have hcs : sep ∉ cs := fun hm => h (List.mem_cons_of_mem c hm)
    simp [pySplitOnAux, hc, ih b (c :: acc) hcs]

/-- For well-formed time periods, parsing splits on the first dash. -/
lemma parse_first_dash (a b : List Char) (ha : '-' ∉ a) (hb : '-' ∉ b) :
    parseTimePeriod (a ++ '-' :: b) = Except.ok (a, b) := by
  unfold parseTimePeriod pySplitOn
  rw [pySplitOnAux_with_sep '-' a b [] ha, pySplitOnAux_no_sep '-' b [] hb]
  simp

/-- A time period with no dash fails to parse. -/
lemma parse_no_dash (tp : List Char) (h : '-' ∉ tp) :
    parseTimePeriod tp = Except.error TimePeriodError.invalidTimePeriodFormat := by
  unfold parseTimePeriod pySplitOn
  rw [pySplitOnAux_no_sep '-' tp [] h]
  simp

/-! ## Claims -/

/-- C1: Region resolution evaluates its tiers strictly in the order
exact match, substring containment (both directions, fixed key order),
alias lookup (canonical key must be in the gazetteer), token fuzzy
match (tokens longer than 3 characters, one a substring of the other),
remote state-then-country lookup, fixed default; for every input the
result is that of the first matching tier, and later tiers never
affect it — i.e. `get_region_boundary` equals the short-circuiting
tier cascade. -/
theorem resolution_cascade_order (env : EEEnv) (location : List Char) :
    getRegionBoundary env location = resolveCascade env location :=
  getRegionBoundary_eq_cascade env location

/-- C2: the flood risk score of every cell is the weighted sum
2·[elev<5] + 1·[elev<15] + 2·[precip>80] + 1·[precip>40] +
2·[backscatter<-12] + 1·[backscatter<-8] + 1·[slope<2]; the zone is 3
when score ≥ 4, 2 on [2,4), 1 on [1,2) and 0 below 1; and the scenario
with very-low-elevation, low-elevation and high-precip true and all
other criteria false scores 4 and lands in zone 3. -/
theorem flood_score_weighted_sum_and_bands (elev precip vv slope q : ℚ) :
    floodRiskScore elev precip vv slope =
      2 * b2q (decide (elev < 5)) + 1 * b2q (decide (elev < 15))
      + 2 * b2q (decide (80 < precip)) + 1 * b2q (decide (40 < precip))
      + 2 * b2q (decide (vv < -12)) + 1 * b2q (decide (vv < -8))
      + 1 * b2q (decide (slope < 2))
    ∧ floodRiskZones q = (if 4 ≤ q then 3 else if 2 ≤ q then 2
        else if 1 ≤ q then 1 else 0)
    ∧ floodRiskScoreOf true true false true false false false = 4
    ∧ floodRiskZones (floodRiskScoreOf true true false true false false false) = 3 := by
  refine ⟨?_, floodRiskZones_eq q, ?_, ?_⟩
  · unfold floodRiskScore floodRiskScoreOf veryLowElevation lowElevation
      veryHighPrecipitation highPrecipitation strongWaterSignal waterAreas flatAreas
    ring
  · norm_num [floodRiskScoreOf, b2q]
  · have h4 : floodRiskScoreOf true true false true false false false = 4 := by
      norm_num [floodRiskScoreOf, b2q]
    rw [h4]
    norm_num [floodRiskZones]

/-- C3: deforestation is a direct two-layer comparison: forest at a
time iff the vegetation index then exceeds 0.3, deforested iff forest
at start and end index below 0.3, change is end minus start, the
significant-decrease flag iff change < -0.1; and the scenario
ndvi_start = 0.5, ndvi_end = 0.2 gives forest_start, not forest_end,
deforested, change -0.3 and a significant decrease. -/
theorem deforestation_two_layer_comparison (s e : ℚ) :
    (forestAt s = true ↔ (0.3:ℚ) < s)
    ∧ (deforestedAreas s e = true ↔ (forestAt s = true ∧ e < 0.3))
    ∧ ndviChange s e = e - s
    ∧ (significantDecrease s e = true ↔ ndviChange s e < -0.1)
    ∧ forestAt 0.5 = true ∧ forestAt 0.2 = false
    ∧ deforestedAreas 0.5 0.2 = true
    ∧ ndviChange 0.5 0.2 = -0.3
    ∧ significantDecrease 0.5 0.2 = true := by
  refine ⟨by simp [forestAt], ?_, rfl, by simp [significantDecrease], ?_, ?_, ?_, ?_, ?_⟩
  · simp [deforestedAreas, forestAt]
  · simp [forestAt]; norm_num
  · simp [forestAt]; norm_num
  · simp [deforestedAreas, forestAt]; norm_num
  · norm_num [ndviChange]
  · simp [significantDecrease, ndviChange]; norm_num

/-- C4: the flood and solar band tables are total and non-overlapping —
at every rational score exactly one condition of each table holds, so
every cell's zone is exactly one of 0, 1, 2, 3; the fractional score
-2.5 (the -3 land-cover penalty plus the +0.5 irradiance bonus) is
reachable and lands in zone 0. -/
theorem band_tables_total_nonoverlapping (q : ℚ) :
    ((if 4 ≤ q then (1:ℕ) else 0) + (if 2 ≤ q ∧ q < 4 then 1 else 0)
      + (if 1 ≤ q ∧ q < 2 then 1 else 0) + (if q < 1 then 1 else 0)) = 1
    ∧ ((if 5 ≤ q then (1:ℕ) else 0) + (if 3 ≤ q ∧ q < 5 then 1 else 0)
      + (if 1 ≤ q ∧ q < 3 then 1 else 0) + (if q < 1 then 1 else 0)) = 1
    ∧ (floodRiskZones q = 0 ∨ floodRiskZones q = 1 ∨ floodRiskZones q = 2
        ∨ floodRiskZones q = 3)
    ∧ (suitabilityZones q = 0 ∨ suitabilityZones q = 1 ∨ suitabilityZones q = 2
        ∨ suitabilityZones q = 3)
    ∧ suitabilityScoreOf false false false false false false true false true = -(5/2)
    ∧ suitabilityZones (-(5/2)) = 0 :=
  ⟨floodBandCount q, solarBandCount q, floodZonesMem q, solarZonesMem q,
    by norm_num [suitabilityScoreOf, b2q], by norm_num [suitabilityZones]⟩

/-- C5: `resolve` is total and never returns an empty-area region — for
every input string (empty and gibberish included) it returns a region
with minLon < maxLon and minLat < maxLat, provided the remote boundary
collaborator only ever reports non-empty regions; and when no tier
matches it falls through to the fixed default region. -/
theorem resolve_total_never_empty (env : EEEnv)
    (hs : ∀ s r, env.stateLookup s = some r → posArea r)
    (hc : ∀ s r, env.countryLookup s = some r → posArea r)
    (location : List Char) :
    posArea (getRegionBoundary env location)
    ∧ (exactMatchTier (pyStrip (pyLower location)) = none →
       substringTier (pyStrip (pyLower location)) = none →
       aliasTier (pyStrip (pyLower location)) = none →
       fuzzyTier (pyStrip (pyLower location)) = none →
       remoteTier env location = none →
       getRegionBoundary env location = defaultRegion) :=
  ⟨resolve_posArea env hs hc location, resolve_fallsThrough env location⟩

/-- Witness for C5 at the gibberish input "zzzz" with the remote
collaborator unavailable: the result has positive area and is the
default region. -/
theorem resolve_total_never_empty_witness :
    posArea (getRegionBoundary eeUnavailable (lstr "zzzz"))
    ∧ getRegionBoundary eeUnavailable (lstr "zzzz") = defaultRegion :=
  have h := resolve_total_never_empty eeUnavailable
    (fun _ _ hh => by simp [eeUnavailable] at hh)
    (fun _ _ hh => by simp [eeUnavailable] at hh) (lstr "zzzz")
  ⟨h.1, h.2 rfl rfl rfl rfl rfl⟩

/-- C6: for every entry of the alias table (including aliases whose
canonical name is absent from the gazetteer, such as vijayawada,
tiruchirapalli and kozhikode), resolving the alias yields the same
region as resolving its canonical name; the remote boundary tier is
modelled as unavailable (Earth Engine uninitialized). -/
theorem resolve_alias_canonical_agree (p : List Char × List Char)
    (hp : p ∈ locationVariations) :
    getRegionBoundary eeUnavailable p.1 = getRegionBoundary eeUnavailable p.2 := by
  fin_cases hp <;> rfl

/-- Witness for C6 at the alias pair (trichy, tiruchirapalli), whose
canonical name is absent from the gazetteer. -/
theorem resolve_alias_canonical_agree_witness :
    getRegionBoundary eeUnavailable (lstr "trichy")
      = getRegionBoundary eeUnavailable (lstr "tiruchirapalli") :=
  resolve_alias_canonical_agree ⟨lstr "trichy", lstr "tiruchirapalli"⟩ (by decide)

/-- C7: the time period is parsed by splitting on the first dash —
"2020-2023" parses to start 2020 and end 2023, a dash-free value such
as "2020" fails with InvalidTimePeriodFormat, and in that case the
layer provider is never consulted (the analysis result is the error,
independent of the provider). -/
theorem time_period_parsing :
    parseTimePeriod (lstr "2020-2023") = Except.ok (lstr "2020", lstr "2023")
    ∧ parseTimePeriod (lstr "2020")
        = Except.error TimePeriodError.invalidTimePeriodFormat
    ∧ (∀ a b : List Char, '-' ∉ a → '-' ∉ b →
        parseTimePeriod (a ++ '-' :: b) = Except.ok (a, b))
    ∧ (∀ tp : List Char, '-' ∉ tp →
        parseTimePeriod tp = Except.error TimePeriodError.invalidTimePeriodFormat)
    ∧ (∀ (α : Type) (fetch : List Char → List Char → α),
        requestDeforestationLayers fetch (lstr "2020-2023")
            = Except.ok (fetch (lstr "2020") (lstr "2023"))
        ∧ requestDeforestationLayers fetch (lstr "2020")
            = Except.error TimePeriodError.invalidTimePeriodFormat) :=
  ⟨rfl, rfl, parse_first_dash, parse_no_dash, fun _ _ => ⟨rfl, rfl⟩⟩

/-- Witness for C7: the general first-dash and no-dash statements
applied at the concrete inputs "2019-2021" and "gibberish". -/
theorem time_period_parsing_witness :
    parseTimePeriod (lstr "2019" ++ '-' :: lstr "2021")
        = Except.ok (lstr "2019", lstr "2021")
    ∧ parseTimePeriod (lstr "gibberish")
        = Except.error TimePeriodError.invalidTimePeriodFormat :=
  ⟨time_period_parsing.2.2.1 (lstr "2019") (lstr "2021") (by decide) (by decide),
   time_period_parsing.2.2.2.1 (lstr "gibberish") (by decide)⟩

/-- C8: the solar suitability score of every cell is the signed
half-integer sum 2·[slope<5] + 1·[slope<15] + 2·[160<aspect<200] +
1·[135<aspect<225] + 2·[bare soil] + 1·[vegetation or bare soil] -
3·[water or urban] + 1·[irradiance>5.2] + 0.5·[irradiance>4.5], banded
as ≥5→3, [3,5)→2, [1,3)→1, <1→0; a cell where only the
unsuitable-land-cover criterion holds scores -3 and gets zone 0. -/
theorem solar_score_weighted_sum_and_bands (slope aspect ndvi irr q : ℚ) :
    suitabilityScore slope aspect ndvi irr =
      2 * b2q (decide (slope < 5)) + 1 * b2q (decide (slope < 15))
      + 2 * b2q (decide (160 < aspect ∧ aspect < 200))
      + 1 * b2q (decide (135 < aspect ∧ aspect < 225))
      + 2 * b2q (bareSoil ndvi) + 1 * b2q (vegetation ndvi || bareSoil ndvi)
      - 3 * b2q (water ndvi || urban ndvi)
      + 1 * b2q (decide (5.2 < irr)) + 0.5 * b2q (decide (4.5 < irr))
    ∧ suitabilityZones q = (if 5 ≤ q then 3 else if 3 ≤ q then 2
        else if 1 ≤ q then 1 else 0)
    ∧ suitabilityScoreOf false false false false false false true false false = -3
    ∧ suitabilityZones (-3) = 0 := by
  refine ⟨?_, suitabilityZones_eq q, ?_, ?_⟩
  · unfold suitabilityScore suitabilityScoreOf verySuitableSlope suitableSlope
      excellentAspect goodAspect excellentLandCover goodLandCover unsuitableLandCover
      excellentIrradiance goodIrradiance
    simp only [Bool.decide_and]
    ring
  · norm_num [suitabilityScoreOf, b2q]
  · norm_num [suitabilityZones]

/-- C9: `plan_analysis` only ever selects flood risk, solar suitability
or deforestation (never the four other declared analysis types); the
keyword groups are tested in the order flood, solar, deforestation, so
a query containing keywords of several groups gets the earliest
matching group (the query "water in the forest" is planned as flood
risk), and a query matching no keyword defaults to flood risk. -/
theorem plan_analysis_dispatch (query location tp : List Char) :
    ((planAnalysis query location tp).analysisType = AnalysisType.floodRisk
      ∨ (planAnalysis query location tp).analysisType = AnalysisType.solarSuitability
      ∨ (planAnalysis query location tp).analysisType = AnalysisType.deforestation)
    ∧ (floodKeywords.any (fun k => pyIn k (pyLower query)) = true →
        planAnalysis query location tp = planFloodRiskAnalysis location tp)
    ∧ (floodKeywords.any (fun k => pyIn k (pyLower query)) = false →
        solarKeywords.any (fun k => pyIn k (pyLower query)) = true →
        planAnalysis query location tp = planSolarSuitabilityAnalysis location tp)
    ∧ (floodKeywords.any (fun k => pyIn k (pyLower query)) = false →
        solarKeywords.any (fun k => pyIn k (pyLower query)) = false →
        deforestationKeywords.any (fun k => pyIn k (pyLower query)) = true →
        planAnalysis query location tp = planDeforestationAnalysis location tp)
    ∧ (floodKeywords.any (fun k => pyIn k (pyLower query)) = false →
        solarKeywords.any (fun k => pyIn k (pyLower query)) = false →
        deforestationKeywords.any (fun k => pyIn k (pyLower query)) = false →
        planAnalysis query location tp = planFloodRiskAnalysis location tp)
    ∧ (planAnalysis (lstr "water in the forest") location tp).analysisType
        = AnalysisType.floodRisk := by
  refine ⟨?_, ?_, ?_, ?_, ?_, rfl⟩
  · unfold planAnalysis
    cases hf : floodKeywords.any (fun k => pyIn k (pyLower query)) with
    | true => simp [hf, planFloodRiskAnalysis]
    | false =>
      cases hs : solarKeywords.any (fun k => pyIn k (pyLower query)) with
      | true => simp [hf, hs, planSolarSuitabilityAnalysis]
      | false =>
        cases hd : deforestationKeywords.any (fun k => pyIn k (pyLower query)) with
        | true => simp [hf, hs, hd, planDeforestationAnalysis]
        | false => simp [hf, hs, hd, planFloodRiskAnalysis]
  · intro hf; unfold planAnalysis; simp [hf]
  · intro hf hs; unfold planAnalysis; simp [hf, hs]
  · intro hf hs hd; unfold planAnalysis; simp [hf, hs, hd]
  · intro hf hs hd; unfold planAnalysis; simp [hf, hs, hd]

/-- Witness for C9 at one query per keyword group and one matching no
group: "flood" is planned as flood risk, "solar" as solar suitability,
"tree" as deforestation, and "zzz" defaults to flood risk. -/
theorem plan_analysis_dispatch_witness :
    planAnalysis (lstr "flood") [] [] = planFloodRiskAnalysis [] []
    ∧ planAnalysis (lstr "solar") [] [] = planSolarSuitabilityAnalysis [] []
    ∧ planAnalysis (lstr "tree") [] [] = planDeforestationAnalysis [] []
    ∧ planAnalysis (lstr "zzz") [] [] = planFloodRiskAnalysis [] [] :=
  ⟨(plan_analysis_dispatch (lstr "flood") [] []).2.1 (by rfl),
   (plan_analysis_dispatch (lstr "solar") [] []).2.2.1 (by rfl) (by rfl),
   (plan_analysis_dispatch (lstr "tree") [] []).2.2.2.1 (by rfl) (by rfl) (by rfl),
   (plan_analysis_dispatch (lstr "zzz") [] []).2.2.2.2.1 (by rfl) (by rfl) (by rfl)⟩

/-- C10: the solar land-cover classes overlap — every urban cell
(0.1 < ndvi < 0.2) is also bare soil, so it receives the +2 excellent,
+1 good and -3 unsuitable contributions simultaneously, for a net
land-cover contribution of exactly 0; the full -3 penalty is received
exactly by the water cells (ndvi < 0.1). -/
theorem solar_landcover_overlap (ndvi : ℚ) :
    (urban ndvi = true →
      (bareSoil ndvi = true ∧ excellentLandCover ndvi = true
        ∧ goodLandCover ndvi = true ∧ unsuitableLandCover ndvi = true
        ∧ landCoverContribution ndvi = 0))
    ∧ (landCoverContribution ndvi = -3 ↔ ndvi < 0.1) := by
  constructor
  · intro h
    have hp := h
    simp only [urban, Bool.and_eq_true, decide_eq_true_eq] at hp
    obtain ⟨h2, h1⟩ := hp
    have hb : bareSoil ndvi = true := by
      simp only [bareSoil, Bool.and_eq_true, decide_eq_true_eq]
      exact ⟨by linarith, h1⟩
    refine ⟨hb, hb, ?_, ?_, ?_⟩
    · simp [goodLandCover, hb]
    · simp [unsuitableLandCover, h]
    · rw [landCoverContribution_eval,
        if_neg (by intro hh; linarith), if_pos ⟨h1, h2⟩]
  · rw [landCoverContribution_eval]
    constructor
    · intro h
      split_ifs at h with hA hB hC hD
      · exact hA
      · norm_num at h
      · norm_num at h
      · norm_num at h
      · norm_num at h
    · intro h
      rw [if_pos h]

/-- Witness for C10 at the urban NDVI value 0.15: such a cell is also
bare soil, carries all three land-cover criteria at once, and its net
land-cover contribution is 0. -/
theorem solar_landcover_overlap_witness :
    bareSoil 0.15 = true ∧ excellentLandCover 0.15 = true
    ∧ goodLandCover 0.15 = true ∧ unsuitableLandCover 0.15 = true
    ∧ landCoverContribution 0.15 = 0 :=
  (solar_landcover_overlap 0.15).1 (by norm_num [urban])

end GeoSpat
